import Mathlib

/-!
Verification of the task-detail view of this django-todo fork.

The development shallowly embeds `todo/views/task_detail.py`: the database is
an explicit record of lists, the request is a record of the submitted form
fields, and the view is a pure function from a database and a request to an
outcome (a new database, dispatched notifications, user-facing messages, and
a response) or a raised error.  Collaborators that the view imports from
modules not present in this tree (`todo/utils.py`, `todo/models.py`,
`todo/forms.py`) are modelled from the specification's description of them;
each such definition carries a doc comment saying so.
-/

namespace Todo

/-- A user, restricted to the fields the view reads: the primary key, the
superuser and staff flags, and the ids of the auth groups the user belongs
to. -/
structure User where
  id : Nat
  is_superuser : Bool
  is_staff : Bool
  groups : List Nat
deriving DecidableEq

/-- A task list: primary key, owning group, and URL slug. -/
structure TaskList where
  id : Nat
  group : Nat
  slug : String
deriving DecidableEq

/-- A task record: identifier, title, note text, completion flag, owning
list, optional due date (modelled as a number), and the nullable
merge-target reference set when the task is merged away. -/
structure Task where
  id : Nat
  title : String
  note : String
  completed : Bool
  task_list : Nat
  due_date : Option Nat
  merged_into : Option Nat
deriving DecidableEq

/-- A comment: identifier, owning task, author, body, creation date. -/
structure Comment where
  id : Nat
  task : Nat
  author : Nat
  body : String
  date : Nat
deriving DecidableEq

/-- An attachment: identifier, owning comment, and the uploaded file
(modelled by its name). -/
structure Attachment where
  id : Nat
  comment : Nat
  file : String
deriving DecidableEq

/-- The relational store the view reads and writes. -/
structure DB where
  tasks : List Task
  tasklists : List TaskList
  comments : List Comment
  attachments : List Attachment
deriving DecidableEq

/-- The form-encoded fields of a request to the view: the four gate fields
`add_comment`, `add_edit_task`, `toggle_done`, `merge_task_into` (presence
modelled as a Bool), plus the respective form field sets for the comment
body, attachment files, task title/note/due-date, and the merge-target
selector. -/
structure PostData where
  add_comment : Bool
  add_edit_task : Bool
  toggle_done : Bool
  merge_task_into : Bool
  comment_body : String
  attachment_files : List String
  edit_title : String
  edit_note : String
  edit_due_date : Option Nat
  merge_target : Option Nat
deriving DecidableEq

/-- A request: the authenticated user and the submitted form data. -/
structure Request where
  user : User
  post : PostData
deriving DecidableEq

/-- Site configuration read by the view: the staff-only mode flag
(`TODO_STAFF_ONLY`) and the task-merge feature flag (`HAS_TASK_MERGE`). -/
structure Config where
  staff_only : Bool
  has_task_merge : Bool
deriving DecidableEq

/-- Modelled from the spec: the validation predicates of the model-backed
forms (`AddEditCommentForm`, `AttachmentFormSet`, `AddEditTaskForm`) defined
in `todo/forms.py`, which is absent from this tree.  The spec only says the
workflows "validate the comment body against form constraints", "validate
each submitted attachment" and "validate submitted field values", so the
constraints themselves are abstract predicates over the submitted data. -/
structure Forms where
  comment_body_valid : String → Bool
  attachment_valid : String → Bool
  edit_valid : PostData → Bool

/-- The state of the comment form returned to the template: a freshly
constructed unbound form, or a form bound to the submitted body. -/
inductive CommentFormState where
  | unbound
  | bound (body : String)
deriving DecidableEq

/-- The state of the attachment formset returned to the template. -/
inductive AttachmentFormSetState where
  | unbound
  | bound (files : List String)
deriving DecidableEq

/-- The state of the task edit form returned to the template. -/
inductive EditFormState where
  | unbound
  | bound (title : String) (note : String)
deriving DecidableEq

/-- The state of the merge form returned to the template.  A bound merge
form never reaches the template: a present `merge_task_into` field either
redirects, raises, or crashes before rendering. -/
inductive MergeFormState where
  | unbound
deriving DecidableEq

/-- A dispatched notification email. -/
structure Notification where
  task : Nat
  body : String
  sender : Nat
  subject : String
  recipients : List Nat
deriving DecidableEq

/-- Modelled from the spec: `user_can_read_task` and `staff_check` live in
`todo/utils.py`, which is absent from this tree.  The spec folds them into a
single Permission Check: "superusers always pass; otherwise the user must be
staff (if staff-only mode is configured) AND a member of the task's owning
group.  Fails closed (denies) on any ambiguity." -/
def user_can_read_task (db : DB) (staff_only : Bool) (task : Task) (user : User) : Bool :=
  user.is_superuser ||
    ((!staff_only || user.is_staff) &&
      (match db.tasklists.find? (fun tl => tl.id == task.task_list) with
       | some tl => user.groups.contains tl.group
       | none => false))

/-- Modelled from the spec: `toggle_task_completed` lives in `todo/utils.py`,
which is absent from this tree.  The spec says it "flips the task's
completion flag; reports to the caller whether the flag's value actually
changed".  Flipping the flag of a task that exists always changes its value;
a missing task changes nothing. -/
def toggle_task_completed (db : DB) (task_id : Nat) : DB × Bool :=
  match db.tasks.find? (fun u => u.id == task_id) with
  | none => (db, false)
  | some _ =>
    ({ db with
        tasks := db.tasks.map (fun u =>
          if u.id == task_id then { u with completed := !u.completed } else u) },
     true)

/-- Modelled from the spec: `Task.merge_into` lives in `todo/models.py`,
which is absent from this tree.  The spec says merge "reassigns all of
source's comments (and their attachments) to target, then marks source as
merged into target" — soft-delete semantics, not hard delete.  Attachments
reference comments by id and comments keep their ids, so attachments move
transitively without being touched. -/
def merge_into (db : DB) (source target : Task) : DB :=
  { db with
    comments := db.comments.map (fun c =>
      if c.task == source.id then { c with task := target.id } else c),
    tasks := db.tasks.map (fun t =>
      if t.id == source.id then { t with merged_into := some target.id } else t) }

/-- Persist edits to a task record (`item.save()`): replace the stored row
that has the item's id. -/
def save_task (db : DB) (item : Task) : DB :=
  { db with tasks := db.tasks.map (fun u => if u.id == item.id then item else u) }

/-- The id the store assigns to the next saved comment. -/
def freshCommentId (db : DB) : Nat :=
  (db.comments.map Comment.id).foldr max 0 + 1

/-- The id the store assigns to the next saved attachment. -/
def freshAttachmentId (db : DB) : Nat :=
  (db.attachments.map Attachment.id).foldr max 0 + 1

/-- Persist the formset's attachments one by one, each bound to the comment
id `cid` (the loop over `attachments_formset.save(commit=False)`). -/
def save_attachments (cid : Nat) (db : DB) : List String → DB
  | [] => db
  | f :: fs =>
    save_attachments cid
      { db with
        attachments := db.attachments ++
          [{ id := freshAttachmentId db, comment := cid, file := f }] }
      fs

/-- The distinct authors of the comments a task currently has. -/
def prior_authors (db : DB) (task_id : Nat) : List Nat :=
  ((db.comments.filter (fun c => c.task == task_id)).map Comment.author).dedup

/-- Modelled from the spec: `send_email_to_thread_participants` lives in
`todo/utils.py`, which is absent from this tree.  The spec says it "sends an
email to all prior participants in a task's comment thread", the thread
participants being "the set of distinct users who have authored a comment on
a given task". -/
def send_email_to_thread_participants (db : DB) (task : Task) (body : String)
    (sender : Nat) (subject : String) : Notification :=
  { task := task.id, body := body, sender := sender, subject := subject,
    recipients := prior_authors db task.id }

/-- The value `handle_add_comment` returns, together with its side effects:
the store, the dispatched notifications, the queued messages, and the pair
of forms handed back to the caller. -/
structure HandleResult where
  db : DB
  notifications : List Notification
  messages : List String
  comment_form : CommentFormState
  attachments_formset : AttachmentFormSetState
deriving DecidableEq

/-- Embedding of `handle_add_comment` (`todo/views/task_detail.py`
lines 56-104): if the `add_comment` field is absent, hand back the forms
unchanged; otherwise bind the comment form to the submission; if it
validates, bind the attachment formset; if that validates too, save the
comment (task and author set from context), save each attachment bound to
the new comment's id, notify the thread participants, queue a success
message and reset both forms.  On any validation failure nothing is saved
and the bound forms are handed back. -/
def handle_add_comment (F : Forms) (now : Nat) (req : Request) (task : Task)
    (db : DB) (comment_form : CommentFormState)
    (attachments_formset : AttachmentFormSetState) : HandleResult :=
  if !req.post.add_comment then
    { db := db, notifications := [], messages := [],
      comment_form := comment_form, attachments_formset := attachments_formset }
  else
    let comment_form := CommentFormState.bound req.post.comment_body
    if F.comment_body_valid req.post.comment_body then
      let attachments_formset := AttachmentFormSetState.bound req.post.attachment_files
      if req.post.attachment_files.all F.attachment_valid then
        let comment : Comment :=
          { id := freshCommentId db, task := task.id, author := req.user.id,
            body := req.post.comment_body, date := now }
        let db1 := { db with comments := db.comments ++ [comment] }
        let db2 := save_attachments comment.id db1 req.post.attachment_files
        let notif := send_email_to_thread_participants db2 task comment.body req.user.id
          ("New comment posted on task \"" ++ task.title ++ "\"")
        { db := db2, notifications := [notif],
          messages := ["Comment posted. Notification email sent to thread participants."],
          comment_form := CommentFormState.unbound,
          attachments_formset := AttachmentFormSetState.unbound }
      else
        { db := db, notifications := [], messages := [],
          comment_form := comment_form, attachments_formset := attachments_formset }
    else
      { db := db, notifications := [], messages := [],
        comment_form := comment_form, attachments_formset := attachments_formset }

/-- The template context assembled at the bottom of the view (`context = {...}`,
restricted to the entries the embedding models). -/
structure Context where
  task : Task
  comment_list : List Comment
  merge_form : Option MergeFormState
  comment_form : CommentFormState
  attachments_formset : AttachmentFormSetState
  form : EditFormState
  thedate : Nat
deriving DecidableEq

/-- The HTTP response the view produces. -/
inductive Response where
  | rendered (ctx : Context)
  | redirect_task_detail (task_id : Nat)
  | redirect_list_detail (list_id : Nat) (list_slug : String)
deriving DecidableEq

/-- An exception escaping the view: `Http404` from `get_object_or_404`,
`PermissionDenied`, or a Python `UnboundLocalError`/`NameError` (a crash). -/
inductive ViewError where
  | notFound
  | permissionDenied
  | nameError
  | internalError
deriving DecidableEq

/-- A normal return from the view: the store, the dispatched notifications,
the queued messages, and the response. -/
structure ViewResult where
  db : DB
  notifications : List Notification
  messages : List String
  response : Response
deriving DecidableEq

/-- The outcome of a request: a normal return, or a raised error together
with the state of the store at the moment of the raise. -/
inductive ViewOutcome where
  | ok (r : ViewResult)
  | error (e : ViewError) (db : DB)
deriving DecidableEq

/-- The store after the request, whether the view returned or raised. -/
def ViewOutcome.resultDb : ViewOutcome → DB
  | .ok r => r.db
  | .error _ db => db

/-- The messages queued by the request (none when the view raised). -/
def ViewOutcome.resultMessages : ViewOutcome → List String
  | .ok r => r.messages
  | .error _ _ => []

/-- The notifications dispatched by the request (none when the view raised). -/
def ViewOutcome.resultNotifications : ViewOutcome → List Notification
  | .ok r => r.notifications
  | .error _ _ => []

/-- The task presented by a rendered task-detail page, if the outcome was a
normal render. -/
def ViewOutcome.renderedTask : ViewOutcome → Option Task
  | .ok r =>
    match r.response with
    | Response.rendered ctx => some ctx.task
    | _ => none
  | .error _ _ => none

/-- Insert a comment into a list kept in descending date order. -/
def insert_by_date_desc (c : Comment) : List Comment → List Comment
  | [] => [c]
  | d :: ds => if c.date ≤ d.date then d :: insert_by_date_desc c ds else c :: d :: ds

/-- `Comment.objects.filter(task=task_id).order_by("-date")`: most recent
first. -/
def order_by_date_desc : List Comment → List Comment
  | [] => []
  | c :: cs => insert_by_date_desc c (order_by_date_desc cs)

/-- Resolution of the merge form's `ModelChoiceField` over
`Task.objects.all()`: the form is valid exactly when the submitted target id
resolves to a stored task. -/
def resolve_merge_target (db : DB) : Option Nat → Option Task
  | none => none
  | some m => db.tasks.find? (fun t => t.id == m)

/-- Tag removal on a character stream: characters between `<` and `>` are
dropped, everything else is kept.  The Bool records whether the scan is
currently inside a tag. -/
def strip_tags_chars : List Char → Bool → List Char
  | [], _ => []
  | c :: cs, true =>
    if c = '>' then strip_tags_chars cs false else strip_tags_chars cs true
  | c :: cs, false =>
    if c = '<' then strip_tags_chars cs true else c :: strip_tags_chars cs false

/-- Modelled from the spec: `bleach.clean(..., strip=True)`, from the
external `bleach` library, applied to the submitted title.  The spec says
the title is "sanitized against markup injection before storage" and that a
title containing `<script>` tags is "stored with the tag removed": markup
tags are removed and their text content kept. -/
def bleach_clean_strip (s : String) : String :=
  String.mk (strip_tags_chars s.data false)

/-- The tail of the view shared by the no-edit and failed-edit paths
(`todo/views/task_detail.py` lines 183-209): the completion toggle, then the
final render of the template context. -/
def task_detail_tail (now : Nat) (post : PostData) (task : Task)
    (comment_list : List Comment) (merge_form : Option MergeFormState)
    (cres : HandleResult) (form : EditFormState) : ViewOutcome :=
  if post.toggle_done then
    let res := toggle_task_completed cres.db task.id
    let msgs :=
      if res.2 then ["Changed completion status for task " ++ toString task.id] else []
    ViewOutcome.ok
      { db := res.1, notifications := cres.notifications,
        messages := cres.messages ++ msgs,
        response := Response.redirect_task_detail task.id }
  else
    ViewOutcome.ok
      { db := cres.db, notifications := cres.notifications, messages := cres.messages,
        response := Response.rendered
          { task := task, comment_list := comment_list, merge_form := merge_form,
            comment_form := cres.comment_form,
            attachments_formset := cres.attachments_formset,
            form := form, thedate := task.due_date.getD now } }

/-- Embedding of the view `task_detail` (`todo/views/task_detail.py`
lines 107-209).  Fetch the task or raise not-found; collect its comments,
newest first; deny unless the permission check passes; when the merge
feature is on and `merge_task_into` was submitted, resolve the target — on a
valid form an unreadable target raises `PermissionDenied` and a readable one
merges and redirects, while on an invalid form the readability check reads
the local `merge_target` that was only ever assigned inside the
`is_valid()` branch, so the request dies with an `UnboundLocalError`;
otherwise run the comment workflow, then the edit workflow (a valid edit
saves the bleached title and redirects to the parent list), then the
completion toggle, and finally render the template context. -/
def task_detail (F : Forms) (cfg : Config) (now : Nat) (db : DB) (req : Request)
    (task_id : Nat) : ViewOutcome :=
  match db.tasks.find? (fun t => t.id == task_id) with
  | none => ViewOutcome.error ViewError.notFound db
  | some task =>
    let comment_list := order_by_date_desc (db.comments.filter (fun c => c.task == task_id))
    if !user_can_read_task db cfg.staff_only task req.user then
      ViewOutcome.error ViewError.permissionDenied db
    else if cfg.has_task_merge && req.post.merge_task_into then
      match resolve_merge_target db req.post.merge_target with
      | some merge_target =>
        if !user_can_read_task db cfg.staff_only merge_target req.user then
          ViewOutcome.error ViewError.permissionDenied db
        else
          ViewOutcome.ok
            { db := merge_into db task merge_target, notifications := [], messages := [],
              response := Response.redirect_task_detail merge_target.id }
      | none => ViewOutcome.error ViewError.nameError db
    else
      let merge_form : Option MergeFormState :=
        if cfg.has_task_merge then some MergeFormState.unbound else none
      let cres := handle_add_comment F now req task db
        CommentFormState.unbound AttachmentFormSetState.unbound
      if !req.post.add_edit_task then
        task_detail_tail now req.post task comment_list merge_form cres
          EditFormState.unbound
      else
        let form := EditFormState.bound req.post.edit_title req.post.edit_note
        if F.edit_valid req.post then
          let item : Task :=
            { task with
              title := bleach_clean_strip req.post.edit_title,
              note := req.post.edit_note,
              due_date := req.post.edit_due_date }
          let db2 := save_task cres.db item
          match db.tasklists.find? (fun tl => tl.id == task.task_list) with
          | some tl =>
            ViewOutcome.ok
              { db := db2, notifications := cres.notifications,
                messages := cres.messages ++ ["The task has been edited."],
                response := Response.redirect_list_detail tl.id tl.slug }
          | none => ViewOutcome.error ViewError.internalError db2
        else
          task_detail_tail now req.post task comment_list merge_form cres form

/-! Concrete fixtures used by witnesses and counterexamples. -/

/-- A task list owned by group 5. -/
def exList : TaskList := { id := 10, group := 5, slug := "work" }

/-- A live task on that list. -/
def exTask : Task :=
  { id := 1, title := "Fix the build", note := "", completed := false,
    task_list := 10, due_date := none, merged_into := none }

/-- A second live task on the same list. -/
def exTaskB : Task :=
  { id := 2, title := "Other task", note := "", completed := false,
    task_list := 10, due_date := none, merged_into := none }

/-- A regular member of group 5 (not staff, not superuser). -/
def exUser : User := { id := 100, is_superuser := false, is_staff := false, groups := [5] }

/-- A superuser who is not staff and belongs to no group. -/
def exSuperUser : User := { id := 101, is_superuser := true, is_staff := false, groups := [] }

/-- A user who is not staff, not superuser, and belongs to no group. -/
def exOutsider : User := { id := 102, is_superuser := false, is_staff := false, groups := [] }

/-- A store holding the two tasks and the list, with no comments yet. -/
def exDb : DB :=
  { tasks := [exTask, exTaskB], tasklists := [exList], comments := [], attachments := [] }

/-- Concrete form constraints: a field validates exactly when it is
nonempty. -/
def exForms : Forms :=
  { comment_body_valid := fun b => !(b == ""),
    attachment_valid := fun f => !(f == ""),
    edit_valid := fun p => !(p.edit_title == "") }

/-- Staff-only mode off, merge feature on. -/
def exCfg : Config := { staff_only := false, has_task_merge := true }

/-- A submission with no gate field set. -/
def quietPost : PostData :=
  { add_comment := false, add_edit_task := false, toggle_done := false,
    merge_task_into := false, comment_body := "", attachment_files := [],
    edit_title := "", edit_note := "", edit_due_date := none, merge_target := none }

/-- A comment submission whose body validates but whose one attachment does
not (the empty file name fails `exForms.attachment_valid`). -/
def exPostBadAttach : PostData :=
  { quietPost with add_comment := true, comment_body := "hello", attachment_files := [""] }

/-- A valid comment submission carrying one valid attachment. -/
def exPostGoodComment : PostData :=
  { quietPost with add_comment := true, comment_body := "hello", attachment_files := ["notes.txt"] }

/-- Shared lemma: without the `add_comment` field the comment workflow hands
everything back untouched (`todo/views/task_detail.py` lines 58-59). -/
theorem handle_add_comment_skip (F : Forms) (now : Nat) (req : Request) (task : Task)
    (db : DB) (cf : CommentFormState) (af : AttachmentFormSetState)
    (h : req.post.add_comment = false) :
    handle_add_comment F now req task db cf af =
      { db := db, notifications := [], messages := [],
        comment_form := cf, attachments_formset := af } := by
  simp [handle_add_comment, h]

/-- C10: for every request whose submitted form data does not contain the
`add_comment` field, `handle_add_comment` is a no-op: it returns exactly the
comment form and attachment formset it was given, persists no Comment or
Attachment, and dispatches no notification. -/
theorem handle_add_comment_without_field_is_noop (F : Forms) (now : Nat) (req : Request)
    (task : Task) (db : DB) (cf : CommentFormState) (af : AttachmentFormSetState)
    (h : req.post.add_comment = false) :
    handle_add_comment F now req task db cf af =
      { db := db, notifications := [], messages := [],
        comment_form := cf, attachments_formset := af } := by
  simp [handle_add_comment, h]

/-- Witness for C10 at a concrete quiet request. -/
theorem handle_add_comment_without_field_is_noop_witness :
    quietPost.add_comment = false ∧
    handle_add_comment exForms 0 { user := exUser, post := quietPost } exTask exDb
      CommentFormState.unbound AttachmentFormSetState.unbound =
      { db := exDb, notifications := [], messages := [],
        comment_form := CommentFormState.unbound,
        attachments_formset := AttachmentFormSetState.unbound } :=
  ⟨by decide,
   handle_add_comment_without_field_is_noop exForms 0
     { user := exUser, post := quietPost } exTask exDb
     CommentFormState.unbound AttachmentFormSetState.unbound (by decide)⟩

/-- C1: comment/attachment submission is all-or-nothing: when `add_comment`
was submitted and either the comment form or the attachment formset fails
validation, the store is unchanged (no Comment, no Attachment), no
notification is dispatched, and the unsaved bound form state is handed back
for re-display. -/
theorem handle_add_comment_all_or_nothing (F : Forms) (now : Nat) (req : Request)
    (task : Task) (db : DB) (cf : CommentFormState) (af : AttachmentFormSetState)
    (hpost : req.post.add_comment = true)
    (hfail : F.comment_body_valid req.post.comment_body = false ∨
             req.post.attachment_files.all F.attachment_valid = false) :
    (handle_add_comment F now req task db cf af).db = db ∧
    (handle_add_comment F now req task db cf af).notifications = [] ∧
    (handle_add_comment F now req task db cf af).comment_form =
      CommentFormState.bound req.post.comment_body ∧
    (F.comment_body_valid req.post.comment_body = true →
      (handle_add_comment F now req task db cf af).attachments_formset =
        AttachmentFormSetState.bound req.post.attachment_files) := by
  rcases hfail with h | h
  · simp [handle_add_comment, hpost, h]
  · by_cases h2 : F.comment_body_valid req.post.comment_body <;>
      simp [handle_add_comment, hpost, h, h2]

/-- Witness for C1: a valid body with an invalid attachment persists
nothing. -/
theorem handle_add_comment_all_or_nothing_witness :
    exPostBadAttach.add_comment = true ∧
    ((handle_add_comment exForms 0 { user := exUser, post := exPostBadAttach } exTask exDb
        CommentFormState.unbound AttachmentFormSetState.unbound).db = exDb ∧
      (handle_add_comment exForms 0 { user := exUser, post := exPostBadAttach } exTask exDb
        CommentFormState.unbound AttachmentFormSetState.unbound).notifications = [] ∧
      (handle_add_comment exForms 0 { user := exUser, post := exPostBadAttach } exTask exDb
        CommentFormState.unbound AttachmentFormSetState.unbound).comment_form =
        CommentFormState.bound exPostBadAttach.comment_body ∧
      (exForms.comment_body_valid exPostBadAttach.comment_body = true →
        (handle_add_comment exForms 0 { user := exUser, post := exPostBadAttach } exTask exDb
          CommentFormState.unbound AttachmentFormSetState.unbound).attachments_formset =
          AttachmentFormSetState.bound exPostBadAttach.attachment_files)) :=
  ⟨by decide,
   handle_add_comment_all_or_nothing exForms 0 { user := exUser, post := exPostBadAttach }
     exTask exDb CommentFormState.unbound AttachmentFormSetState.unbound
     (by decide) (Or.inr (by decide))⟩

/-- C5: a valid comment with one valid attachment persists exactly one
Comment (bound to the task and the requesting user) and exactly one
Attachment referencing the new Comment's id, and dispatches one notification
whose recipient list is duplicate-free and contains every distinct prior
comment author on the task. -/
theorem handle_add_comment_success_persists_and_notifies (F : Forms) (now : Nat)
    (req : Request) (task : Task) (db : DB) (f : String)
    (hpost : req.post.add_comment = true)
    (hbody : F.comment_body_valid req.post.comment_body = true)
    (hfiles : req.post.attachment_files = [f])
    (hfile : F.attachment_valid f = true) :
    (handle_add_comment F now req task db CommentFormState.unbound
        AttachmentFormSetState.unbound).db.comments =
      db.comments ++
        [{ id := freshCommentId db, task := task.id, author := req.user.id,
           body := req.post.comment_body, date := now }] ∧
    (handle_add_comment F now req task db CommentFormState.unbound
        AttachmentFormSetState.unbound).db.attachments =
      db.attachments ++
        [{ id := freshAttachmentId db, comment := freshCommentId db, file := f }] ∧
    (handle_add_comment F now req task db CommentFormState.unbound
        AttachmentFormSetState.unbound).notifications.length = 1 ∧
    ∀ n ∈ (handle_add_comment F now req task db CommentFormState.unbound
        AttachmentFormSetState.unbound).notifications,
      n.task = task.id ∧ n.recipients.Nodup ∧
      ∀ a ∈ prior_authors db task.id, a ∈ n.recipients := by
  refine ⟨?_, ?_, ?_, ?_⟩ <;>
    simp [handle_add_comment, hpost, hbody, hfiles, hfile, save_attachments,
      send_email_to_thread_participants, prior_authors, freshAttachmentId,
      List.nodup_dedup, List.mem_dedup, List.filter_append, List.mem_append]
  intro a x hx ht ha
  exact Or.inl ⟨x, ⟨hx, ht⟩, ha⟩

/-- Witness for C5 at a concrete valid submission. -/
theorem handle_add_comment_success_witness :
    exPostGoodComment.add_comment = true ∧
    ((handle_add_comment exForms 7 { user := exUser, post := exPostGoodComment } exTask exDb
        CommentFormState.unbound AttachmentFormSetState.unbound).db.comments =
      exDb.comments ++
        [{ id := freshCommentId exDb, task := exTask.id, author := exUser.id,
           body := exPostGoodComment.comment_body, date := 7 }] ∧
      (handle_add_comment exForms 7 { user := exUser, post := exPostGoodComment } exTask exDb
        CommentFormState.unbound AttachmentFormSetState.unbound).db.attachments =
      exDb.attachments ++
        [{ id := freshAttachmentId exDb, comment := freshCommentId exDb, file := "notes.txt" }] ∧
      (handle_add_comment exForms 7 { user := exUser, post := exPostGoodComment } exTask exDb
        CommentFormState.unbound AttachmentFormSetState.unbound).notifications.length = 1 ∧
      ∀ n ∈ (handle_add_comment exForms 7 { user := exUser, post := exPostGoodComment } exTask
        exDb CommentFormState.unbound AttachmentFormSetState.unbound).notifications,
        n.task = exTask.id ∧ n.recipients.Nodup ∧
        ∀ a ∈ prior_authors exDb exTask.id, a ∈ n.recipients) :=
  ⟨by decide,
   handle_add_comment_success_persists_and_notifies exForms 7
     { user := exUser, post := exPostGoodComment } exTask exDb "notes.txt"
     (by decide) (by decide) (by decide) (by decide)⟩

/-- A task list owned by group 6, which `exUser` does not belong to. -/
def exListPrivate : TaskList := { id := 11, group := 6, slug := "private" }

/-- A task on the private list. -/
def exTaskC : Task :=
  { id := 3, title := "Private task", note := "", completed := false,
    task_list := 11, due_date := none, merged_into := none }

/-- A store that also holds the private list and its task. -/
def exDb2 : DB :=
  { tasks := [exTask, exTaskB, exTaskC], tasklists := [exList, exListPrivate],
    comments := [], attachments := [] }

/-- A merge submission aimed at the unreadable task 3, also used with
`exDb2`. -/
def exPostMergeTo3 : PostData :=
  { quietPost with merge_task_into := true, merge_target := some 3 }

/-- A merge submission whose target id resolves to no task, making the
merge form invalid. -/
def exPostMerge99 : PostData :=
  { quietPost with merge_task_into := true, merge_target := some 99 }

/-- A submission carrying the merge fields (target task 2) together with a
valid comment and the completion toggle. -/
def exPostMergePlus : PostData :=
  { quietPost with
      merge_task_into := true, merge_target := some 2,
      add_comment := true, comment_body := "hi", toggle_done := true }

/-- A submission carrying both a valid comment and the completion toggle. -/
def exPostCommentToggle : PostData :=
  { quietPost with
      add_comment := true, comment_body := "hi", toggle_done := true }

/-- C3 amended: a non-superuser who is neither staff nor a member of the
task's owning group is denied: the view raises PermissionDenied, leaves the
store untouched, and renders no task content. -/
theorem nonsuperuser_nonstaff_nonmember_forbidden
    (F : Forms) (cfg : Config) (now : Nat) (db : DB) (req : Request)
    (task_id : Nat) (task : Task)
    (hfind : db.tasks.find? (fun u => u.id == task_id) = some task)
    (hsu : req.user.is_superuser = false)
    (_hstaff : req.user.is_staff = false)
    (hmem : ∀ tl ∈ db.tasklists, tl.id = task.task_list →
      req.user.groups.contains tl.group = false) :
    task_detail F cfg now db req task_id =
      ViewOutcome.error ViewError.permissionDenied db := by
  have hperm : user_can_read_task db cfg.staff_only task req.user = false := by
    unfold user_can_read_task
    rw [hsu]
    cases hf : db.tasklists.find? (fun tl => tl.id == task.task_list) with
    | none => simp
    | some tl =>
      have htl := List.mem_of_find?_eq_some hf
      have hp := List.find?_some hf
      simp only [beq_iff_eq] at hp
      have hc := hmem tl htl hp
      simp [hc]
      intro _
      simpa using hc
  simp [task_detail, hfind, hperm]

/-- Witness for the amended C3: the group-less non-staff `exOutsider` is
denied. -/
theorem nonsuperuser_nonstaff_nonmember_forbidden_witness :
    exDb.tasks.find? (fun u => u.id == 1) = some exTask ∧
    task_detail exForms exCfg 0 exDb { user := exOutsider, post := quietPost } 1 =
      ViewOutcome.error ViewError.permissionDenied exDb :=
  ⟨by decide,
   nonsuperuser_nonstaff_nonmember_forbidden exForms exCfg 0 exDb
     { user := exOutsider, post := quietPost } 1 exTask
     (by decide) (by decide) (by decide) (by decide)⟩

/-- Counterexample to C3 as stated: a superuser who is neither staff nor a
member of the task's owning group is served the task page, because the
permission policy lets superusers pass unconditionally. -/
theorem superuser_nonstaff_nonmember_sees_task :
    exSuperUser.is_staff = false ∧
    exSuperUser.groups = [] ∧
    (task_detail exForms exCfg 0 exDb
        { user := exSuperUser, post := quietPost } 1).renderedTask = some exTask := by
  decide

/-- C7: a merge request whose resolved target the acting user cannot read is
rejected with PermissionDenied before any reassignment: the store is
returned exactly as it was, so no comment moved and the source task was not
marked merged. -/
theorem merge_unreadable_target_forbidden
    (F : Forms) (cfg : Config) (now : Nat) (db : DB) (req : Request)
    (task_id : Nat) (task target : Task)
    (hflag : cfg.has_task_merge = true)
    (hpost : req.post.merge_task_into = true)
    (hfind : db.tasks.find? (fun u => u.id == task_id) = some task)
    (hperm : user_can_read_task db cfg.staff_only task req.user = true)
    (hres : resolve_merge_target db req.post.merge_target = some target)
    (htperm : user_can_read_task db cfg.staff_only target req.user = false) :
    task_detail F cfg now db req task_id =
      ViewOutcome.error ViewError.permissionDenied db := by
  simp [task_detail, hfind, hperm, hflag, hpost, hres, htperm]

/-- Witness for C7: `exUser` may read task 1 but not task 3 (private list),
so merging 1 into 3 is denied and the store is unchanged. -/
theorem merge_unreadable_target_forbidden_witness :
    user_can_read_task exDb2 exCfg.staff_only exTaskC exUser = false ∧
    task_detail exForms exCfg 0 exDb2 { user := exUser, post := exPostMergeTo3 } 1 =
      ViewOutcome.error ViewError.permissionDenied exDb2 :=
  ⟨by decide,
   merge_unreadable_target_forbidden exForms exCfg 0 exDb2
     { user := exUser, post := exPostMergeTo3 } 1 exTask exTaskC
     (by decide) (by decide) (by decide) (by decide) (by decide) (by decide)⟩

/-- C2 amended, first half: a merge request that executes to completion is
exclusive — whatever other gate fields the submission carries, the request
performs exactly the merge: no comment is persisted, no notification sent,
no message queued, the attachments are untouched, and the response is the
redirect to the merge target. -/
theorem merge_request_executes_merge_only
    (F : Forms) (cfg : Config) (now : Nat) (db : DB) (req : Request)
    (task_id : Nat) (task target : Task)
    (hflag : cfg.has_task_merge = true)
    (hpost : req.post.merge_task_into = true)
    (hfind : db.tasks.find? (fun u => u.id == task_id) = some task)
    (hperm : user_can_read_task db cfg.staff_only task req.user = true)
    (hres : resolve_merge_target db req.post.merge_target = some target)
    (htperm : user_can_read_task db cfg.staff_only target req.user = true) :
    task_detail F cfg now db req task_id =
      ViewOutcome.ok
        { db := merge_into db task target, notifications := [], messages := [],
          response := Response.redirect_task_detail target.id } ∧
    (merge_into db task target).comments.length = db.comments.length ∧
    (merge_into db task target).attachments = db.attachments := by
  refine ⟨?_, ?_, rfl⟩
  · simp [task_detail, hfind, hperm, hflag, hpost, hres, htperm]
  · simp [merge_into]

/-- Witness for the amended C2: a request carrying `merge_task_into` plus
`add_comment` (with a valid body) plus `toggle_done` still performs only the
merge. -/
theorem merge_request_executes_merge_only_witness :
    exPostMergePlus.add_comment = true ∧
    (task_detail exForms exCfg 0 exDb { user := exUser, post := exPostMergePlus } 1 =
      ViewOutcome.ok
        { db := merge_into exDb exTask exTaskB, notifications := [], messages := [],
          response := Response.redirect_task_detail exTaskB.id } ∧
      (merge_into exDb exTask exTaskB).comments.length = exDb.comments.length ∧
      (merge_into exDb exTask exTaskB).attachments = exDb.attachments) :=
  ⟨by decide,
   merge_request_executes_merge_only exForms exCfg 0 exDb
     { user := exUser, post := exPostMergePlus } 1 exTask exTaskB
     (by decide) (by decide) (by decide) (by decide) (by decide) (by decide)⟩

/-- Counterexample to C2 as stated: one request carrying both `add_comment`
(valid body) and `toggle_done` executes the comment workflow AND the
completion toggle: a comment is persisted, a notification dispatched, and
the completion flag flipped, all in the same request. -/
theorem comment_and_toggle_both_execute :
    exPostCommentToggle.add_comment = true ∧
    exPostCommentToggle.toggle_done = true ∧
    (task_detail exForms exCfg 0 exDb
        { user := exUser, post := exPostCommentToggle } 1).resultDb.comments.length =
      exDb.comments.length + 1 ∧
    (task_detail exForms exCfg 0 exDb
        { user := exUser, post := exPostCommentToggle } 1).resultNotifications.length = 1 ∧
    ((task_detail exForms exCfg 0 exDb
        { user := exUser, post := exPostCommentToggle } 1).resultDb.tasks.find?
        (fun u => u.id == 1)).map Task.completed = some true ∧
    (exDb.tasks.find? (fun u => u.id == 1)).map Task.completed = some false := by
  decide

/-- C4: the failing input for the unbound-local crash.  A submission with
`merge_task_into` present whose merge target does not resolve (id 99 names
no task) makes the merge form invalid; the readability check then reads the
local `merge_target`, which was only assigned inside the `is_valid()`
branch, and the request dies with an UnboundLocalError instead of
redisplaying the form — nothing is persisted. -/
theorem invalid_merge_form_crashes_unbound_local :
    resolve_merge_target exDb exPostMerge99.merge_target = none ∧
    task_detail exForms exCfg 0 exDb { user := exUser, post := exPostMerge99 } 1 =
      ViewOutcome.error ViewError.nameError exDb := by
  decide

/-- A task-edit submission whose title carries a script tag. -/
def exPostEditScript : PostData :=
  { quietPost with
      add_edit_task := true,
      edit_title := "<script>alert(1)</script>Pay bills", edit_note := "soon" }

/-- C8: a valid task-edit submission persists the task with its title run
through the tag-stripping sanitizer, leaves the note and due date as
submitted, and responds with a redirect to the task's parent list view. -/
theorem edit_task_sanitizes_title_and_redirects
    (F : Forms) (cfg : Config) (now : Nat) (db : DB) (req : Request)
    (task_id : Nat) (task : Task) (tl : TaskList)
    (hfind : db.tasks.find? (fun u => u.id == task_id) = some task)
    (hperm : user_can_read_task db cfg.staff_only task req.user = true)
    (hmerge : req.post.merge_task_into = false)
    (hcomment : req.post.add_comment = false)
    (hedit : req.post.add_edit_task = true)
    (hvalid : F.edit_valid req.post = true)
    (hlist : db.tasklists.find? (fun l => l.id == task.task_list) = some tl) :
    task_detail F cfg now db req task_id =
      ViewOutcome.ok
        { db := save_task db
            { task with
                title := bleach_clean_strip req.post.edit_title,
                note := req.post.edit_note,
                due_date := req.post.edit_due_date },
          notifications := [], messages := ["The task has been edited."],
          response := Response.redirect_list_detail tl.id tl.slug } := by
  simp [task_detail, hfind, hperm, hmerge, hcomment, hedit, hvalid, hlist,
    handle_add_comment]

/-- Witness for C8: the stored title has the script tag removed, keeping its
text content, and the response redirects to the parent list. -/
theorem edit_task_sanitizes_title_and_redirects_witness :
    exForms.edit_valid exPostEditScript = true ∧
    bleach_clean_strip exPostEditScript.edit_title = "alert(1)Pay bills" ∧
    task_detail exForms exCfg 0 exDb { user := exUser, post := exPostEditScript } 1 =
      ViewOutcome.ok
        { db := save_task exDb
            { exTask with
                title := bleach_clean_strip exPostEditScript.edit_title,
                note := exPostEditScript.edit_note,
                due_date := exPostEditScript.edit_due_date },
          notifications := [], messages := ["The task has been edited."],
          response := Response.redirect_list_detail exList.id exList.slug } :=
  ⟨by decide, by decide,
   edit_task_sanitizes_title_and_redirects exForms exCfg 0 exDb
     { user := exUser, post := exPostEditScript } 1 exTask exList
     (by decide) (by decide) (by decide) (by decide) (by decide) (by decide) (by decide)⟩

/-- A submission carrying only the completion toggle. -/
def exPostToggle : PostData := { quietPost with toggle_done := true }

/-- Shared lemma: `find?` over a mapped list whose function preserves the
predicate's verdict. -/
theorem find?_map_congr {α β : Type} (f : α → β) (p : α → Bool) (q : β → Bool)
    (hpq : ∀ a, q (f a) = p a) (l : List α) :
    (l.map f).find? q = (l.find? p).map f := by
  induction l with
  | nil => rfl
  | cons a l ih =>
    simp only [List.map_cons, List.find?]
    rw [hpq a]
    cases h : p a
    · simpa using ih
    · simp

/-- Shared lemma: flipping the completion flag of the tasks matching an id
twice restores the task list. -/
theorem toggle_map_involutive (task_id : Nat) (l : List Task) :
    ((l.map (fun u => if u.id == task_id then { u with completed := !u.completed } else u)).map
      (fun u => if u.id == task_id then { u with completed := !u.completed } else u)) = l := by
  rw [List.map_map]
  have h : ((fun u : Task => if u.id == task_id then { u with completed := !u.completed } else u) ∘
      (fun u : Task => if u.id == task_id then { u with completed := !u.completed } else u)) = id := by
    funext u
    by_cases hc : (u.id == task_id) = true <;> simp [Function.comp, hc]
  rw [h, List.map_id]

/-- Shared lemma: the completion flip preserves the find?-by-id predicate. -/
theorem toggle_comp_pred (task_id : Nat) :
    ((fun u : Task => u.id == task_id) ∘ (fun u : Task =>
      if u.id == task_id then { u with completed := !u.completed } else u)) =
      (fun u : Task => u.id == task_id) := by
  funext u
  by_cases hc : (u.id == task_id) = true <;> simp [Function.comp, hc]

/-- Shared lemma: after a toggle, looking the task up again yields the task
with its flag flipped. -/
theorem toggle_find_eq (db : DB) (task_id : Nat) (task : Task)
    (hfind : db.tasks.find? (fun u => u.id == task_id) = some task) :
    (toggle_task_completed db task_id).1.tasks.find? (fun u => u.id == task_id) =
      some { task with completed := !task.completed } := by
  have hid : task.id = task_id := by simpa using List.find?_some hfind
  simp only [toggle_task_completed, hfind]
  rw [List.find?_map, toggle_comp_pred, hfind, Option.map_some']
  simp [hid]

/-- Shared lemma: toggling the same task twice restores the store exactly. -/
theorem toggle_toggle_eq (db : DB) (task_id : Nat) (task : Task)
    (hfind : db.tasks.find? (fun u => u.id == task_id) = some task) :
    (toggle_task_completed (toggle_task_completed db task_id).1 task_id).1 = db := by
  have h1 := toggle_find_eq db task_id task hfind
  simp only [toggle_task_completed, hfind] at h1 ⊢
  rw [h1]
  change ({
      tasks := (db.tasks.map (fun u =>
        if u.id == task_id then { u with completed := !u.completed } else u)).map (fun u =>
        if u.id == task_id then { u with completed := !u.completed } else u),
      tasklists := db.tasklists,
      comments := db.comments,
      attachments := db.attachments } : DB) = db
  rw [toggle_map_involutive task_id db.tasks]

/-- Shared lemma: a toggle does not affect the permission check, which only
reads the task lists and the task's owning list. -/
theorem toggle_perm_eq (db : DB) (task_id : Nat) (staff_only : Bool) (t1 t2 : Task)
    (user : User) (ht : t1.task_list = t2.task_list) :
    user_can_read_task (toggle_task_completed db task_id).1 staff_only t1 user =
      user_can_read_task db staff_only t2 user := by
  cases hf : db.tasks.find? (fun u => u.id == task_id) with
  | none => simp [toggle_task_completed, hf, user_can_read_task, ht]
  | some t => simp [toggle_task_completed, hf, user_can_read_task, ht]

/-- Shared lemma: a pure toggle request flips the flag, reports the change,
and redirects back to the task. -/
theorem toggle_view_eq (F : Forms) (cfg : Config) (now : Nat) (db : DB) (req : Request)
    (task_id : Nat) (task : Task)
    (hfind : db.tasks.find? (fun u => u.id == task_id) = some task)
    (hperm : user_can_read_task db cfg.staff_only task req.user = true)
    (hmerge : req.post.merge_task_into = false)
    (hcomment : req.post.add_comment = false)
    (hedit : req.post.add_edit_task = false)
    (htog : req.post.toggle_done = true) :
    task_detail F cfg now db req task_id =
      ViewOutcome.ok
        { db := (toggle_task_completed db task_id).1, notifications := [],
          messages := ["Changed completion status for task " ++ toString task_id],
          response := Response.redirect_task_detail task_id } := by
  have hid : task.id = task_id := by simpa using List.find?_some hfind
  simp [task_detail, hfind, hperm, hmerge, hcomment, hedit, htog,
    task_detail_tail, handle_add_comment, toggle_task_completed, hid]

/-- C9 amended: the completion toggle is an involution — toggling twice via
the view returns the store to exactly its original state — but each toggle
of an existing task reports a change: the second toggle's request also
queues the "Changed completion status" message (it does not report "no
change"). -/
theorem toggle_twice_restores_and_both_report_change
    (F : Forms) (cfg : Config) (now : Nat) (db : DB) (req : Request)
    (task_id : Nat) (task : Task)
    (hfind : db.tasks.find? (fun u => u.id == task_id) = some task)
    (hperm : user_can_read_task db cfg.staff_only task req.user = true)
    (hmerge : req.post.merge_task_into = false)
    (hcomment : req.post.add_comment = false)
    (hedit : req.post.add_edit_task = false)
    (htog : req.post.toggle_done = true) :
    task_detail F cfg now db req task_id =
      ViewOutcome.ok
        { db := (toggle_task_completed db task_id).1, notifications := [],
          messages := ["Changed completion status for task " ++ toString task_id],
          response := Response.redirect_task_detail task_id } ∧
    task_detail F cfg now (toggle_task_completed db task_id).1 req task_id =
      ViewOutcome.ok
        { db := db, notifications := [],
          messages := ["Changed completion status for task " ++ toString task_id],
          response := Response.redirect_task_detail task_id } := by
  have hfind1 := toggle_find_eq db task_id task hfind
  have hperm1 : user_can_read_task (toggle_task_completed db task_id).1 cfg.staff_only
      { task with completed := !task.completed } req.user = true := by
    have hpe := toggle_perm_eq db task_id cfg.staff_only
      { task with completed := !task.completed } task req.user rfl
    rw [hpe]
    exact hperm
  refine ⟨toggle_view_eq F cfg now db req task_id task hfind hperm hmerge hcomment hedit htog, ?_⟩
  have h2 := toggle_view_eq F cfg now (toggle_task_completed db task_id).1 req task_id
    { task with completed := !task.completed } hfind1 hperm1 hmerge hcomment hedit htog
  rw [toggle_toggle_eq db task_id task hfind] at h2
  exact h2

/-- Witness for the amended C9 at a concrete task. -/
theorem toggle_twice_restores_and_both_report_change_witness :
    exPostToggle.toggle_done = true ∧
    (task_detail exForms exCfg 0 exDb { user := exUser, post := exPostToggle } 1 =
      ViewOutcome.ok
        { db := (toggle_task_completed exDb 1).1, notifications := [],
          messages := ["Changed completion status for task " ++ toString 1],
          response := Response.redirect_task_detail 1 } ∧
    task_detail exForms exCfg 0 (toggle_task_completed exDb 1).1
        { user := exUser, post := exPostToggle } 1 =
      ViewOutcome.ok
        { db := exDb, notifications := [],
          messages := ["Changed completion status for task " ++ toString 1],
          response := Response.redirect_task_detail 1 }) :=
  ⟨by decide,
   toggle_twice_restores_and_both_report_change exForms exCfg 0 exDb
     { user := exUser, post := exPostToggle } 1 exTask
     (by decide) (by decide) (by decide) (by decide) (by decide) (by decide)⟩

/-- Counterexample to C9 as stated: the second toggle's request reports a
change (it queues the "Changed completion status" message), not "no
change", even though the store is back to its original state. -/
theorem second_toggle_also_reports_change :
    (task_detail exForms exCfg 0 exDb
        { user := exUser, post := exPostToggle } 1).resultMessages =
      ["Changed completion status for task 1"] ∧
    (task_detail exForms exCfg 0
        (task_detail exForms exCfg 0 exDb
          { user := exUser, post := exPostToggle } 1).resultDb
        { user := exUser, post := exPostToggle } 1).resultMessages =
      ["Changed completion status for task 1"] ∧
    (task_detail exForms exCfg 0
        (task_detail exForms exCfg 0 exDb
          { user := exUser, post := exPostToggle } 1).resultDb
        { user := exUser, post := exPostToggle } 1).resultDb = exDb := by
  decide

/-- A merge submission aimed at task 2. -/
def exPostMergeTo2 : PostData :=
  { quietPost with merge_task_into := true, merge_target := some 2 }

/-- A store like `exDb` but with one existing comment on task 1. -/
def exDbC : DB :=
  { exDb with comments := [{ id := 1, task := 1, author := 100, body := "old", date := 0 }] }

/-- C6 amended: merging reassigns every one of the source's comments to the
target and marks the source as merged (soft delete), but the source remains
independently readable: a subsequent task detail request for the source's id
by a permitted user is served the source's normally rendered detail page
(with an empty comment list), not a forbidden, not-found or redirect
response. -/
theorem merged_source_still_renders
    (F : Forms) (cfg : Config) (now : Nat) (db : DB) (s t sM : Task) (req : Request)
    (hne : (s.id == t.id) = false)
    (hfind : (merge_into db s t).tasks.find? (fun u => u.id == s.id) = some sM)
    (hperm : user_can_read_task (merge_into db s t) cfg.staff_only sM req.user = true)
    (hq1 : req.post.merge_task_into = false)
    (hq2 : req.post.add_comment = false)
    (hq3 : req.post.add_edit_task = false)
    (hq4 : req.post.toggle_done = false) :
    (∀ c ∈ (merge_into db s t).comments, (c.task == s.id) = false) ∧
    sM.merged_into = some t.id ∧
    task_detail F cfg now (merge_into db s t) req s.id =
      ViewOutcome.ok
        { db := merge_into db s t, notifications := [], messages := [],
          response := Response.rendered
            { task := sM, comment_list := [],
              merge_form := if cfg.has_task_merge then some MergeFormState.unbound else none,
              comment_form := CommentFormState.unbound,
              attachments_formset := AttachmentFormSetState.unbound,
              form := EditFormState.unbound,
              thedate := sM.due_date.getD now } } := by
  have hne2 : s.id ≠ t.id := by simpa using hne
  have hcom : ∀ c ∈ (merge_into db s t).comments, (c.task == s.id) = false := by
    intro c hc
    simp only [merge_into, List.mem_map] at hc
    obtain ⟨c0, _hc0, rfl⟩ := hc
    by_cases h : (c0.task == s.id) = true
    · simp [h]
      exact fun e => hne2 e.symm
    · simp [h]
  have hsm : sM.merged_into = some t.id := by
    have hpred := List.find?_some hfind
    have hmem := List.mem_of_find?_eq_some hfind
    simp only [merge_into, List.mem_map] at hmem
    obtain ⟨u, _hu, rfl⟩ := hmem
    by_cases h : (u.id == s.id) = true
    · simp [h]
    · simp [h] at hpred
  have hfilter : (merge_into db s t).comments.filter (fun c => c.task == s.id) = [] := by
    rw [List.filter_eq_nil_iff]
    intro c hc
    simp [hcom c hc]
  refine ⟨hcom, hsm, ?_⟩
  simp [task_detail, hfind, hperm, hq1, hq2, hq3, hq4, task_detail_tail,
    handle_add_comment, hfilter, order_by_date_desc]

/-- Witness for the amended C6 at a concrete store with one comment on the
source. -/
theorem merged_source_still_renders_witness :
    ((merge_into exDbC exTask exTaskB).tasks.find? (fun u => u.id == exTask.id) =
      some { exTask with merged_into := some 2 }) ∧
    ((∀ c ∈ (merge_into exDbC exTask exTaskB).comments, (c.task == exTask.id) = false) ∧
      ({ exTask with merged_into := some 2 } : Task).merged_into = some exTaskB.id ∧
      task_detail exForms exCfg 0 (merge_into exDbC exTask exTaskB)
          { user := exUser, post := quietPost } exTask.id =
        ViewOutcome.ok
          { db := merge_into exDbC exTask exTaskB, notifications := [], messages := [],
            response := Response.rendered
              { task := { exTask with merged_into := some 2 }, comment_list := [],
                merge_form := if exCfg.has_task_merge then some MergeFormState.unbound else none,
                comment_form := CommentFormState.unbound,
                attachments_formset := AttachmentFormSetState.unbound,
                form := EditFormState.unbound,
                thedate := ({ exTask with merged_into := some 2 } : Task).due_date.getD 0 } } ) :=
  ⟨by decide,
   merged_source_still_renders exForms exCfg 0 exDbC exTask exTaskB
     { exTask with merged_into := some 2 } { user := exUser, post := quietPost }
     (by decide) (by decide) (by decide) (by decide) (by decide) (by decide) (by decide)⟩

/-- Counterexample to C6 as stated: after a merge request folds task 1 into
task 2, a subsequent task detail request for id 1 by a permitted user is
served a normally rendered task page presenting task 1 (now bearing
merged_into = 2) — the merged-away source is still readable as a task
detail page. -/
theorem merged_task_still_readable_concrete :
    ((task_detail exForms exCfg 0 exDbC
        { user := exUser, post := exPostMergeTo2 } 1).resultDb.tasks.find?
        (fun u => u.id == 1)).map Task.merged_into = some (some 2) ∧
    ((task_detail exForms exCfg 0
        (task_detail exForms exCfg 0 exDbC
          { user := exUser, post := exPostMergeTo2 } 1).resultDb
        { user := exUser, post := quietPost } 1).renderedTask).map Task.id = some 1 ∧
    ((task_detail exForms exCfg 0
        (task_detail exForms exCfg 0 exDbC
          { user := exUser, post := exPostMergeTo2 } 1).resultDb
        { user := exUser, post := quietPost } 1).renderedTask).map Task.merged_into =
      some (some 2) := by
  decide

end Todo
